import Mathlib

/-
Verification of the rsip-wrapper transport bridge and its example consumer
module (mod_rsip.c).  The visible C sources are the API header
(rsip_wrapper.h), the FreeSWITCH example module (mod_rsip.c) and the
standalone harness (test_mod_rsip.c).  The transport core behind the header
is not part of the visible sources, so its operations are modelled from the
specification; the consumer-side functions rsip_cb and rsip_worker_run are
embedded directly from mod_rsip.c.
-/

set_option maxHeartbeats 800000

/- ===== Part 1: transport model (spec-modelled) ===== -/

/-- Modelled from the spec: Transport State (spec section 3).  The Rust-side
transport core is not in the visible sources; this structure follows the
spec description: an optional bound socket handle, a running flag, plus the
process-wide Callback Slot (at most one registered sink, identified here by
a number) and an initialization flag for the lifecycle phases. -/
structure Transport where
  inited : Bool
  running : Bool
  socket : Option Nat
  callback : Option Nat
deriving DecidableEq

/-- The initial, uninitialized Transport State. -/
def Transport.start0 : Transport :=
  { inited := false, running := false, socket := none, callback := none }

/-- Modelled from the spec: rsip_init (spec section 4.1, initialize).
Prepares process-wide state exactly once; later calls are no-ops returning
success. -/
def rsip_init (t : Transport) : Bool × Transport :=
  if t.inited then (true, t) else (true, { t with inited := true })

/-- Modelled from the spec: rsip_set_event_callback (spec section 4.2).
Atomically replaces any existing sink in the Callback Slot. -/
def rsip_set_event_callback (s : Nat) (t : Transport) : Transport :=
  { t with callback := some s }

/-- Modelled from the spec: rsip_clear_event_callback (spec section 4.2).
Atomically removes the sink from the Callback Slot. -/
def rsip_clear_event_callback (t : Transport) : Transport :=
  { t with callback := none }

/-- Modelled from the spec: rsip_start_udp_listener (spec sections 4.1, 4.4).
Port 0 is rejected; ports are 16-bit values.  The call is valid only from
the Initialized or Stopped phases: before initialization it is a contract
violation reported as failure, and while Listening it fails with an
already-running error.  The portFree flag stands for the environment: bind
succeeds only if the OS reports the port available. -/
def rsip_start_udp_listener (port : Nat) (portFree : Bool) (t : Transport) :
    Bool × Transport :=
  if port = 0 ∨ 65536 ≤ port then (false, t)
  else if !t.inited then (false, t)
  else if t.running then (false, t)
  else if portFree then
    (true, { t with running := true, socket := some port })
  else (false, t)

/-- Digit characters accumulate to a number, most significant first. -/
def digitsToNat : List Char → Nat → Nat
  | [], acc => acc
  | c :: rest, acc => digitsToNat rest (acc * 10 + (c.toNat - 48))

/-- Split a character list on dots, keeping empty groups. -/
def splitDots : List Char → List (List Char)
  | [] => [[]]
  | c :: rest =>
    if c = '.' then [] :: splitDots rest
    else
      match splitDots rest with
      | [] => [[c]]
      | g :: gs => (c :: g) :: gs

/-- One dotted-quad component: one to three digit characters, value at most
255. -/
def parseOctet (cs : List Char) : Option Nat :=
  if cs.isEmpty then none
  else if cs.all Char.isDigit && cs.length ≤ 3 then
    let n := digitsToNat cs 0
    if n ≤ 255 then some n else none
  else none

/-- Modelled from the spec: the address check of send_datagram (spec section
4.3 resolves/parses dest_ip, rejecting malformed addresses with an error).
A well-formed address is an IPv4 dotted quad. -/
def parseIPv4 (s : String) : Option (Nat × Nat × Nat × Nat) :=
  match (splitDots s.data).mapM parseOctet with
  | some [a, b, c, d] => some (a, b, c, d)
  | _ => none

/-- Modelled from the spec: rsip_send_udp (spec sections 4.3, 7).  A
malformed destination address is rejected before any OS call, so the result
does not depend on the osOk flag there; calling before initialization is a
contract violation reported as failure; otherwise the OS send outcome is
returned.  No branch changes the Transport State. -/
def rsip_send_udp (destIp : String) (destPort : Nat) (payload : String)
    (osOk : Bool) (t : Transport) : Bool × Transport :=
  match parseIPv4 destIp with
  | none => (false, t)
  | some _ =>
    if !t.inited then (false, t)
    else (osOk && destPort ≠ 0, t)

/-- Modelled from the spec: rsip_shutdown (spec section 4.1).  Safe from any
state, idempotent: stops the receive task, closes the socket and resets the
Transport State to its not-running form. -/
def rsip_shutdown (t : Transport) : Transport :=
  { t with running := false, socket := none }

/-- Modelled from the spec: the Event Dispatcher (spec section 4.4).  One
received datagram produces the invocations performed for it: if the
transport is running and a sink is registered, the sink is invoked once
with event-kind sip_rx and the raw payload text; with no sink the event is
silently dropped. -/
def dispatchDatagram (payload : String) (t : Transport) :
    List (Nat × String × String) :=
  if t.running then
    match t.callback with
    | some s => [(s, "sip_rx", payload)]
    | none => []
  else []

/-- Actions a consumer or the network can perform against the transport. -/
inductive Act where
  | actInit : Act
  | actSetCb (s : Nat) : Act
  | actClearCb : Act
  | actStart (port : Nat) (portFree : Bool) : Act
  | actSend (ip : String) (port : Nat) (payload : String) (osOk : Bool) : Act
  | actDeliver (payload : String) : Act
  | actShutdown : Act

/-- One action applied to the Transport State, with the sink invocations it
causes. -/
def stepAct (t : Transport) : Act → Transport × List (Nat × String × String)
  | .actInit => ((rsip_init t).2, [])
  | .actSetCb s => (rsip_set_event_callback s t, [])
  | .actClearCb => (rsip_clear_event_callback t, [])
  | .actStart p f => ((rsip_start_udp_listener p f t).2, [])
  | .actSend ip p pay ok => ((rsip_send_udp ip p pay ok t).2, [])
  | .actDeliver pay => (t, dispatchDatagram pay t)
  | .actShutdown => (rsip_shutdown t, [])

/-- Run a sequence of actions, collecting every sink invocation in order. -/
def runActs (t : Transport) : List Act → Transport × List (Nat × String × String)
  | [] => (t, [])
  | a :: rest =>
    let s1 := stepAct t a
    let s2 := runActs s1.1 rest
    (s2.1, s1.2 ++ s2.2)

/- ===== Part 2: shutdown/dispatch interleaving machine (spec-modelled) ===== -/

/-- Modelled from the spec: the concurrent picture of spec sections 4.1 and
5.  The receive thread may have a dispatch in flight while a consumer
thread runs shutdown; shutdown first signals, then joins the receive task
before returning.  completed records the sink invocations that have
finished. -/
structure MState where
  tr : Transport
  dispatching : Option (Nat × String)
  sdRequested : Bool
  sdReturned : Bool
  completed : List (Nat × String)

/-- Modelled from the spec: interleaved steps of the receive thread and a
consumer thread calling shutdown.  beginDispatch starts a sink invocation
for a received datagram; endDispatch completes it; requestShutdown is the
consumer entering shutdown; returnShutdown is shutdown returning, which the
spec allows only after joining the receive task, hence only with no
dispatch in flight. -/
inductive MStep : MState → MState → Prop where
  | beginDispatch (m : MState) (s : Nat) (p : String)
      (hrun : m.tr.running = true) (hcb : m.tr.callback = some s)
      (hfree : m.dispatching = none) :
      MStep m { m with dispatching := some (s, p) }
  | endDispatch (m : MState) (e : Nat × String)
      (h : m.dispatching = some e) :
      MStep m { m with dispatching := none, completed := m.completed ++ [e] }
  | requestShutdown (m : MState) (h : m.sdRequested = false) :
      MStep m { m with sdRequested := true }
  | returnShutdown (m : MState) (hreq : m.sdRequested = true)
      (hfree : m.dispatching = none) :
      MStep m { m with tr := rsip_shutdown m.tr, sdReturned := true }

/-- After shutdown has returned, no dispatch is in flight and the transport
is no longer running. -/
def SdDone (m : MState) : Prop :=
  m.sdReturned = true → m.dispatching = none ∧ m.tr.running = false

/- ===== Part 3: mod_rsip.c consumer code, embedded from the source ===== -/

/-- A small heap: a fresh-address counter and the string cells allocated so
far.  The item structs allocated by malloc occupy addresses too but carry
no string content. -/
structure Heap where
  next : Nat
  data : List (Nat × String)

/-- Read the string stored at an address, if any. -/
def Heap.lookup (h : Heap) (a : Nat) : Option String :=
  match h.data.find? (fun p => p.1 = a) with
  | some p => some p.2
  | none => none

/-- Allocate a fresh cell holding a copy of the string (the strdup model). -/
def Heap.alloc (h : Heap) (s : String) : Nat × Heap :=
  (h.next, { next := h.next + 1, data := (h.next, s) :: h.data })

/-- Allocate a fresh raw cell with no string content (the malloc of the
item struct). -/
def Heap.allocRaw (h : Heap) : Nat × Heap :=
  (h.next, { next := h.next + 1, data := h.data })

/-- Every stored address is below the fresh-address counter. -/
def Heap.WF (h : Heap) : Prop :=
  ∀ p, p ∈ h.data → p.1 < h.next

/-- rsip_event_item_t from mod_rsip.c: the struct address plus the two
possibly-NULL string pointers it holds. -/
structure EventItem where
  addr : Nat
  event : Option Nat
  payload : Option Nat
deriving DecidableEq

/-- Outcome of one rsip_cb call: the heap and queue afterwards, the
addresses allocated during the call, the addresses freed before returning,
and the item pushed, if any. -/
structure CbResult where
  heap : Heap
  queue : Option (List EventItem)
  allocated : List Nat
  freed : List Nat
  pushed : Option EventItem

/-- The strdup line of rsip_cb for one field: NULL input stays NULL, and on
a non-NULL input the oracle decides whether the allocation succeeds (strdup
returning NULL on failure). -/
def strdupOpt (ok : Bool) (h : Heap) (src : Option Nat) : Option Nat × Heap :=
  match src with
  | none => (none, h)
  | some a =>
    if ok then
      let r := h.alloc ((h.lookup a).getD "")
      (some r.1, r.2)
    else (none, h)

/-- Embedded from mod_rsip.c, rsip_cb (lines 84-116).  Runs on the listener
thread with borrowed event and payload pointers.  If the queue pointer is
unset the event is dropped; otherwise an item struct is malloced (mallocOk
decides success), both strings are strdup-copied, the item is freed and the
event dropped when both copies came out NULL, and otherwise the item is
try-pushed, being fully freed when the push fails. -/
def rsip_cb (queue : Option (List EventItem))
    (mallocOk sdupEvOk sdupPlOk pushOk : Bool)
    (h : Heap) (event payload : Option Nat) : CbResult :=
  match queue with
  | none => { heap := h, queue := none, allocated := [], freed := [], pushed := none }
  | some q =>
    if !mallocOk then
      { heap := h, queue := some q, allocated := [], freed := [], pushed := none }
    else
      let r1 := h.allocRaw
      let itNat := r1.1
      let r2 := strdupOpt sdupEvOk r1.2 event
      let evNat := r2.1
      let r3 := strdupOpt sdupPlOk r2.2 payload
      let plNat := r3.1
      let h3 := r3.2
      let it : EventItem := { addr := itNat, event := evNat, payload := plNat }
      let allocd := itNat :: (evNat.toList ++ plNat.toList)
      match evNat, plNat with
      | none, none =>
        { heap := h3, queue := some q, allocated := allocd,
          freed := [itNat], pushed := none }
      | _, _ =>
        if pushOk then
          { heap := h3, queue := some (q ++ [it]), allocated := allocd,
            freed := [], pushed := some it }
        else
          { heap := h3, queue := some q, allocated := allocd,
            freed := evNat.toList ++ plNat.toList ++ [itNat], pushed := none }

/-- The three frees the worker performs for one popped item: free of the
event string, of the payload string (free of NULL is a no-op) and of the
item struct. -/
def itemFrees (it : EventItem) : List Nat :=
  it.event.toList ++ it.payload.toList ++ [it.addr]

/-- Embedded from mod_rsip.c, rsip_worker_run (lines 45-80).  The queue is
a list whose entries are either a NULL sentinel or an item pointer.  The
loop pops until trypop fails (queue exhausted) or a NULL sentinel is
popped, freeing the fields and the struct of every non-NULL popped item;
it returns the addresses freed and the entries left unpopped. -/
def rsip_worker_run : List (Option EventItem) → List Nat × List (Option EventItem)
  | [] => ([], [])
  | none :: rest => ([], rest)
  | some it :: rest =>
    let r := rsip_worker_run rest
    (itemFrees it ++ r.1, r.2)

/-- Items the worker pops and processes: the prefix before the first NULL
sentinel (or the whole queue when there is none). -/
def poppedItems : List (Option EventItem) → List EventItem
  | [] => []
  | none :: _ => []
  | some it :: rest => it :: poppedItems rest

/-- Queue entries left behind after the worker exits: what follows the
first NULL sentinel, or nothing when the queue runs out. -/
def restAfterStop : List (Option EventItem) → List (Option EventItem)
  | [] => []
  | none :: rest => rest
  | some _ :: rest => restAfterStop rest

/- ===== Part 4: auxiliary definitions used by the theorems ===== -/

/-- The Transport State invariant of spec section 3: a bound socket exists
if and only if the running flag is true. -/
def TInv (t : Transport) : Prop :=
  t.socket.isSome = t.running

/-- All heap addresses held by the items of a queue (fields and structs),
sentinels contributing nothing. -/
def allItemAddrs (q : List (Option EventItem)) : List Nat :=
  q.flatMap (fun o => (o.map itemFrees).getD [])

/-- A concrete machine state used to exercise the interleaving machine. -/
def mw0 : MState :=
  { tr := Transport.start0, dispatching := none, sdRequested := false,
    sdReturned := false, completed := [] }

/-- The state after the consumer requests shutdown from mw0. -/
def mw1 : MState :=
  { mw0 with sdRequested := true }

/-- A concrete running transport with sink 7 registered, for witnesses. -/
def tw : Transport :=
  { inited := true, running := true, socket := some 15060, callback := some 7 }

/-- A concrete heap for the rsip_cb witnesses: two borrowed strings at
addresses 0 and 1. -/
def hw : Heap :=
  { next := 2, data := [(0, "sip_rx"), (1, "PING")] }

/-- A concrete initialized, stopped transport, for witnesses. -/
def ts : Transport :=
  { inited := true, running := false, socket := none, callback := none }

/-- A concrete worker queue: one item, a NULL sentinel, then one more
item that the worker must leave unpopped. -/
def qw : List (Option EventItem) :=
  [some { addr := 10, event := some 11, payload := some 12 }, none,
   some { addr := 13, event := none, payload := none }]

/- ===== Theorems ===== -/

theorem heap_lookup_allocRaw (h : Heap) (a : Nat) :
    (h.allocRaw).2.lookup a = h.lookup a := rfl

theorem heap_lookup_alloc_self (h : Heap) (s : String) :
    (h.alloc s).2.lookup h.next = some s := by
  simp [Heap.alloc, Heap.lookup]

theorem heap_lookup_alloc_lt (h : Heap) (s : String) (a : Nat) (ha : a < h.next) :
    (h.alloc s).2.lookup a = h.lookup a := by
  simp only [Heap.alloc, Heap.lookup, List.find?]
  have : (decide (h.next = a)) = false := by
    simp [Nat.ne_of_gt ha]
  simp [this]

theorem heap_lookup_lt (h : Heap) (hwf : h.WF) (a : Nat) (s : String)
    (hl : h.lookup a = some s) : a < h.next := by
  unfold Heap.lookup at hl
  rcases hfind : h.data.find? (fun p => p.1 = a) with _ | p
  · rw [hfind] at hl; simp at hl
  · have hmem := List.mem_of_find?_eq_some hfind
    have hpa := List.find?_some hfind
    have hpa' : p.1 = a := by simpa using hpa
    have hlt := hwf p hmem
    exact hpa' ▸ hlt

theorem deliver_only_no_cb (t : Transport) (h : t.callback = none)
    (ds : List String) :
    (runActs t (ds.map Act.actDeliver)).2 = [] := by
  induction ds with
  | nil => rfl
  | cons d rest ih =>
    simp [runActs, stepAct, dispatchDatagram, h, ih]

/-- C1: once rsip_clear_event_callback has returned, delivering any number
of further datagrams to the bound socket causes no sink invocation at all,
so the invocation count of the previously registered sink never increases. -/
theorem c1_no_invocation_after_clear (t : Transport) (ds : List String) :
    (runActs (rsip_clear_event_callback t) (ds.map Act.actDeliver)).2 = [] :=
  deliver_only_no_cb _ rfl ds

/-- C2: rsip_shutdown is idempotent and safe without a prior start: from
any Transport State, including the initial one, it leaves the state
not-running with the socket closed, a second call changes nothing, and a
subsequent valid start_listener succeeds again on an available port. -/
theorem c2_shutdown_idempotent (t : Transport) (p : Nat)
    (hp0 : p ≠ 0) (hp : p < 65536) :
    rsip_shutdown (rsip_shutdown t) = rsip_shutdown t ∧
    (rsip_shutdown t).running = false ∧
    (rsip_shutdown t).socket = none ∧
    (rsip_shutdown Transport.start0).running = false ∧
    (t.inited = true → (rsip_start_udp_listener p true (rsip_shutdown t)).1 = true) := by
  refine ⟨rfl, rfl, rfl, rfl, fun hi => ?_⟩
  simp [rsip_start_udp_listener, rsip_shutdown, hi, hp0, hp, Nat.not_le.mpr hp]

theorem c2_witness :
    (5060 : Nat) ≠ 0 ∧ (5060 : Nat) < 65536 ∧
    (rsip_shutdown (rsip_shutdown tw) = rsip_shutdown tw ∧
     (rsip_shutdown tw).running = false ∧
     (rsip_shutdown tw).socket = none ∧
     (rsip_shutdown Transport.start0).running = false ∧
     (tw.inited = true → (rsip_start_udp_listener 5060 true (rsip_shutdown tw)).1 = true)) :=
  ⟨by decide, by decide, c2_shutdown_idempotent tw 5060 (by decide) (by decide)⟩

/-- C3: in the interleaving machine, the step on which shutdown returns can
only fire with no sink invocation in flight (the in-flight invocation has
completed first), and once shutdown has returned no step starts or
completes a further invocation: the completed list is frozen and nothing is
mid-dispatch. -/
theorem c3_shutdown_blocks_until_drained (m m' : MState) (hstep : MStep m m') :
    (m'.sdReturned = true → m.sdReturned = false → m.dispatching = none) ∧
    (SdDone m → SdDone m' ∧
      (m.sdReturned = true → m'.completed = m.completed ∧ m'.dispatching = none)) := by
  cases hstep with
  | beginDispatch s p hrun hcb hfree =>
    refine ⟨fun h1 h2 => ?_, fun hd => ⟨fun h1 => ?_, fun h1 => ?_⟩⟩
    · exact absurd h1 (by simp [h2])
    · exact absurd hrun (by simp [(hd h1).2])
    · exact absurd hrun (by simp [(hd h1).2])
  | endDispatch e h =>
    refine ⟨fun h1 h2 => ?_, fun hd => ⟨fun h1 => ?_, fun h1 => ?_⟩⟩
    · exact absurd h1 (by simp [h2])
    · exact ⟨rfl, (hd h1).2⟩
    · exact absurd h (by simp [(hd h1).1])
  | requestShutdown h =>
    refine ⟨fun h1 h2 => ?_, fun hd => ⟨fun h1 => ?_, fun h1 => ?_⟩⟩
    · exact absurd h1 (by simp [h2])
    · exact hd h1
    · exact ⟨rfl, (hd h1).1⟩
  | returnShutdown hreq hfree =>
    exact ⟨fun h1 h2 => hfree, fun hd => ⟨fun h1 => ⟨hfree, rfl⟩, fun h1 => ⟨rfl, hfree⟩⟩⟩

theorem c3_witness :
    (mw1.sdReturned = true → mw0.sdReturned = false → mw0.dispatching = none) ∧
    (SdDone mw0 → SdDone mw1 ∧
      (mw0.sdReturned = true → mw1.completed = mw0.completed ∧ mw1.dispatching = none)) :=
  c3_shutdown_blocks_until_drained mw0 mw1 (MStep.requestShutdown mw0 rfl)

/-- C4: invalid inputs are rejected as failure results with the Transport
State unchanged: start_listener with port 0 fails, send_datagram with the
malformed address not-an-ip fails regardless of the OS outcome, and from
the unchanged state a subsequent valid start_listener still succeeds. -/
theorem c4_invalid_inputs_rejected (t : Transport) (f osOk : Bool) (p : Nat)
    (hinit : t.inited = true) (hrun : t.running = false)
    (hp0 : p ≠ 0) (hp : p < 65536) :
    rsip_start_udp_listener 0 f t = (false, t) ∧
    rsip_send_udp "not-an-ip" 5060 "x" osOk t = (false, t) ∧
    (rsip_start_udp_listener p true t).1 = true := by
  refine ⟨by simp [rsip_start_udp_listener], ?_, ?_⟩
  · have hparse : parseIPv4 "not-an-ip" = none := by decide
    simp [rsip_send_udp, hparse]
  · simp [rsip_start_udp_listener, hinit, hrun, hp0, Nat.not_le.mpr hp]

theorem c4_witness :
    ts.inited = true ∧ ts.running = false ∧ (5060 : Nat) ≠ 0 ∧ (5060 : Nat) < 65536 ∧
    (rsip_start_udp_listener 0 true ts = (false, ts) ∧
     rsip_send_udp "not-an-ip" 5060 "x" true ts = (false, ts) ∧
     (rsip_start_udp_listener 5060 true ts).1 = true) :=
  ⟨rfl, rfl, by decide, by decide,
   c4_invalid_inputs_rejected ts true true 5060 rfl rfl (by decide) (by decide)⟩

/-- C5: for every datagram received while a sink is registered and the
transport is running, the Event Dispatcher invokes exactly that sink, once,
with event-kind sip_rx and the raw payload text unmodified. -/
theorem c5_dispatch_sip_rx (t : Transport) (s : Nat) (p : String)
    (hrun : t.running = true) (hcb : t.callback = some s) :
    dispatchDatagram p t = [(s, "sip_rx", p)] := by
  simp [dispatchDatagram, hrun, hcb]

theorem c5_witness :
    tw.running = true ∧ tw.callback = some 7 ∧
    dispatchDatagram "PING" tw = [(7, "sip_rx", "PING")] :=
  ⟨rfl, rfl, c5_dispatch_sip_rx tw 7 "PING" rfl rfl⟩

/-- C6: only one active listener is supported: calling start_listener
while Listening fails, leaves the Transport State untouched, and a
datagram delivered afterwards still reaches the originally registered
sink. -/
theorem c6_exclusive_listener (t : Transport) (p2 s : Nat) (f : Bool) (pay : String)
    (hrun : t.running = true) (hcb : t.callback = some s) :
    (rsip_start_udp_listener p2 f t).1 = false ∧
    (rsip_start_udp_listener p2 f t).2 = t ∧
    dispatchDatagram pay (rsip_start_udp_listener p2 f t).2 = [(s, "sip_rx", pay)] := by
  have h2 : rsip_start_udp_listener p2 f t = (false, t) := by
    unfold rsip_start_udp_listener
    split_ifs <;> simp_all
  rw [h2]
  exact ⟨rfl, rfl, by simp [dispatchDatagram, hrun, hcb]⟩

theorem c6_witness :
    tw.running = true ∧ tw.callback = some 7 ∧
    ((rsip_start_udp_listener 15060 true tw).1 = false ∧
     (rsip_start_udp_listener 15060 true tw).2 = tw ∧
     dispatchDatagram "probe" (rsip_start_udp_listener 15060 true tw).2 =
       [(7, "sip_rx", "probe")]) :=
  ⟨rfl, rfl, c6_exclusive_listener tw 15060 7 true "probe" rfl rfl⟩

/-- C7: the Transport State invariant, a bound socket exists if and only
if the running flag is true, is preserved by every operation; a successful
start_listener sets both the socket and the running flag, and shutdown
clears both. -/
theorem c7_transport_invariant (t : Transport) (hv : TInv t) (s p dp : Nat)
    (f ok : Bool) (ip pay : String) :
    TInv (rsip_init t).2 ∧ TInv (rsip_set_event_callback s t) ∧
    TInv (rsip_clear_event_callback t) ∧
    TInv (rsip_start_udp_listener p f t).2 ∧
    TInv (rsip_send_udp ip dp pay ok t).2 ∧
    TInv (rsip_shutdown t) ∧
    ((rsip_start_udp_listener p f t).1 = true →
      (rsip_start_udp_listener p f t).2.socket = some p ∧
      (rsip_start_udp_listener p f t).2.running = true) ∧
    (rsip_shutdown t).socket = none ∧ (rsip_shutdown t).running = false := by
  unfold TInv at *
  refine ⟨?_, hv, hv, ?_, ?_, rfl, ?_, rfl, rfl⟩
  · unfold rsip_init; split_ifs <;> simp_all
  · unfold rsip_start_udp_listener; split_ifs <;> simp_all
  · unfold rsip_send_udp
    rcases hm : parseIPv4 ip with _ | q <;> simp [hm] <;>
      first
      | exact hv
      | (split_ifs <;> simp_all)
  · unfold rsip_start_udp_listener; split_ifs <;> simp_all

theorem c7_witness :
    TInv tw ∧
    (TInv (rsip_init tw).2 ∧ TInv (rsip_set_event_callback 3 tw) ∧
     TInv (rsip_clear_event_callback tw) ∧
     TInv (rsip_start_udp_listener 5060 true tw).2 ∧
     TInv (rsip_send_udp "127.0.0.1" 5060 "PING" true tw).2 ∧
     TInv (rsip_shutdown tw) ∧
     ((rsip_start_udp_listener 5060 true tw).1 = true →
       (rsip_start_udp_listener 5060 true tw).2.socket = some 5060 ∧
       (rsip_start_udp_listener 5060 true tw).2.running = true) ∧
     (rsip_shutdown tw).socket = none ∧ (rsip_shutdown tw).running = false) :=
  ⟨rfl, c7_transport_invariant tw rfl 3 5060 5060 true true "127.0.0.1" "PING"⟩

theorem perm_swap2 (a c : Nat) : ([a, c]).Perm [c, a] :=
  List.Perm.swap c a []

theorem perm_rotate3 (a b c : Nat) : ([a, b, c]).Perm [c, a, b] := by
  simpa using List.perm_append_singleton c [a, b]

/-- C9: on every path where rsip_cb does not push an item (queue pointer
unset, item allocation failure, both string copies NULL, or trypush
failure) the event is dropped with the queue left unchanged, and the
addresses freed before returning are exactly the allocations made during
the call. -/
theorem c9_nonpush_paths (queue : Option (List EventItem))
    (mallocOk sdEv sdPl pushOk : Bool) (h : Heap) (event payload : Option Nat)
    (hnp : (rsip_cb queue mallocOk sdEv sdPl pushOk h event payload).pushed = none) :
    ((rsip_cb queue mallocOk sdEv sdPl pushOk h event payload).freed).Perm
      ((rsip_cb queue mallocOk sdEv sdPl pushOk h event payload).allocated) ∧
    (rsip_cb queue mallocOk sdEv sdPl pushOk h event payload).queue = queue := by
  rcases queue with _ | q
  · simp [rsip_cb]
  rcases mallocOk
  · simp [rsip_cb]
  rcases event with _ | be <;> rcases payload with _ | bp <;>
    rcases sdEv <;> rcases sdPl <;> rcases pushOk <;>
    simp_all [rsip_cb, strdupOpt] <;>
    first
    | exact List.Perm.refl _
    | exact perm_swap2 _ _
    | exact perm_rotate3 _ _ _

theorem workerFrees_sublist (q : List (Option EventItem)) :
    ((poppedItems q).flatMap itemFrees).Sublist (allItemAddrs q) := by
  induction q with
  | nil => simp [poppedItems, allItemAddrs]
  | cons o rest ih =>
    cases o with
    | none => simp [poppedItems, allItemAddrs]
    | some it =>
      simp only [poppedItems, allItemAddrs, List.flatMap_cons, Option.map_some',
        Option.getD_some]
      exact ih.append_left _

theorem worker_run_eq (q : List (Option EventItem)) :
    rsip_worker_run q = ((poppedItems q).flatMap itemFrees, restAfterStop q) := by
  induction q with
  | nil => rfl
  | cons o rest ih =>
    cases o with
    | none => rfl
    | some it => simp [rsip_worker_run, poppedItems, restAfterStop, ih]

/-- C10: the worker loop rsip_worker_run stops exactly at the first
failing trypop or NULL sentinel, leaving the later entries unpopped, and
the frees it performs are precisely one free of the event field, the
payload field and the struct of each popped item; under distinct item
addresses no address is freed twice. -/
theorem c10_worker_terminates (q : List (Option EventItem))
    (h : (allItemAddrs q).Nodup) :
    rsip_worker_run q = ((poppedItems q).flatMap itemFrees, restAfterStop q) ∧
    (rsip_worker_run q).1.Nodup := by
  refine ⟨worker_run_eq q, ?_⟩
  rw [worker_run_eq q]
  exact h.sublist (workerFrees_sublist q)

/-- C8: every item rsip_cb pushes holds freshly allocated copies: the
strdup results live at addresses fresh for the caller heap, their contents
equal the borrowed event and payload strings, NULL inputs stay NULL, and
neither borrowed pointer is stored in the pushed item. -/
theorem c8_pushed_fresh_copies (q : List EventItem) (mallocOk pushOk : Bool)
    (h : Heap) (event payload : Option Nat) (it : EventItem)
    (hwf : h.WF)
    (hbe : ∀ be, event = some be → (h.lookup be).isSome = true)
    (hbp : ∀ bp, payload = some bp → (h.lookup bp).isSome = true)
    (hpush : (rsip_cb (some q) mallocOk true true pushOk h event payload).pushed = some it) :
    (rsip_cb (some q) mallocOk true true pushOk h event payload).queue = some (q ++ [it]) ∧
    (event = none → it.event = none) ∧
    (payload = none → it.payload = none) ∧
    (∀ be, event = some be → ∃ a, it.event = some a ∧ h.next ≤ a ∧
      (rsip_cb (some q) mallocOk true true pushOk h event payload).heap.lookup a = h.lookup be) ∧
    (∀ bp, payload = some bp → ∃ a, it.payload = some a ∧ h.next ≤ a ∧
      (rsip_cb (some q) mallocOk true true pushOk h event payload).heap.lookup a = h.lookup bp) ∧
    (∀ b, event = some b ∨ payload = some b → it.event ≠ some b ∧ it.payload ≠ some b) := by
  rcases mallocOk
  · simp [rsip_cb] at hpush
  rcases pushOk
  · rcases event with _ | be <;> rcases payload with _ | bp <;>
      simp [rsip_cb, strdupOpt] at hpush
  rcases event with _ | be <;> rcases payload with _ | bp
  · simp [rsip_cb, strdupOpt] at hpush
  · -- event NULL, payload borrowed at bp
    obtain ⟨sp, hsp⟩ := Option.isSome_iff_exists.mp (hbp bp rfl)
    have hbplt : bp < h.next := heap_lookup_lt h hwf bp sp hsp
    simp [rsip_cb, strdupOpt] at hpush
    subst hpush
    simp [rsip_cb, strdupOpt]
    have e0 : h.allocRaw.2.lookup bp = some sp := hsp
    rw [e0]
    simp only [Option.getD_some]
    have e1 : (h.allocRaw.2.alloc sp).1 = h.next + 1 := rfl
    refine ⟨⟨by rw [e1]; omega, ?_⟩, by rw [e1]; omega⟩
    rw [hsp]
    exact heap_lookup_alloc_self _ _
  · -- payload NULL, event borrowed at be
    obtain ⟨se, hse⟩ := Option.isSome_iff_exists.mp (hbe be rfl)
    have hbelt : be < h.next := heap_lookup_lt h hwf be se hse
    simp [rsip_cb, strdupOpt] at hpush
    subst hpush
    simp [rsip_cb, strdupOpt]
    have e0 : h.allocRaw.2.lookup be = some se := hse
    rw [e0]
    simp only [Option.getD_some]
    have e1 : (h.allocRaw.2.alloc se).1 = h.next + 1 := rfl
    refine ⟨⟨by rw [e1]; omega, ?_⟩, by rw [e1]; omega⟩
    rw [hse]
    exact heap_lookup_alloc_self _ _
  · -- both borrowed
    obtain ⟨se, hse⟩ := Option.isSome_iff_exists.mp (hbe be rfl)
    obtain ⟨sp, hsp⟩ := Option.isSome_iff_exists.mp (hbp bp rfl)
    have hbelt : be < h.next := heap_lookup_lt h hwf be se hse
    have hbplt : bp < h.next := heap_lookup_lt h hwf bp sp hsp
    simp [rsip_cb, strdupOpt] at hpush
    subst hpush
    simp [rsip_cb, strdupOpt]
    have e0 : h.allocRaw.2.lookup be = some se := hse
    rw [e0]
    simp only [Option.getD_some]
    have ebp2 : (h.allocRaw.2.alloc se).2.lookup bp = some sp := by
      rw [heap_lookup_alloc_lt _ _ _ (Nat.lt_succ_of_lt hbplt)]
      exact hsp
    rw [ebp2]
    simp only [Option.getD_some]
    have e1 : (h.allocRaw.2.alloc se).1 = h.next + 1 := rfl
    have e2 : ((h.allocRaw.2.alloc se).2.alloc sp).1 = h.next + 2 := rfl
    refine ⟨⟨by rw [e1]; omega, ?_⟩, ⟨by rw [e2]; omega, ?_⟩, ?_⟩
    · rw [hse]
      have step1 : ((h.allocRaw.2.alloc se).2.alloc sp).2.lookup (h.allocRaw.2.alloc se).1
          = (h.allocRaw.2.alloc se).2.lookup (h.allocRaw.2.alloc se).1 :=
        heap_lookup_alloc_lt _ _ _ (by rw [e1]; exact Nat.lt_succ_self _)
      rw [step1]
      exact heap_lookup_alloc_self _ _
    · rw [hsp]
      exact heap_lookup_alloc_self _ _
    · intro b hb
      rw [e1, e2]
      rcases hb with rfl | rfl <;> exact ⟨by omega, by omega⟩

theorem hw_wf : hw.WF := by
  intro p hp
  simp [hw] at hp
  rcases hp with rfl | rfl <;> decide

theorem c8_witness :
    hw.WF ∧
    (rsip_cb (some []) true true true true hw (some 0) (some 1)).pushed =
      some { addr := 2, event := some 3, payload := some 4 } ∧
    ((rsip_cb (some []) true true true true hw (some 0) (some 1)).queue =
        some ([] ++ [{ addr := 2, event := some 3, payload := some 4 }]) ∧
     ((some 0 : Option Nat) = none →
        ({ addr := 2, event := some 3, payload := some 4 } : EventItem).event = none) ∧
     ((some 1 : Option Nat) = none →
        ({ addr := 2, event := some 3, payload := some 4 } : EventItem).payload = none) ∧
     (∀ be, (some 0 : Option Nat) = some be →
        ∃ a, ({ addr := 2, event := some 3, payload := some 4 } : EventItem).event = some a ∧
          hw.next ≤ a ∧
          (rsip_cb (some []) true true true true hw (some 0) (some 1)).heap.lookup a =
            hw.lookup be) ∧
     (∀ bp, (some 1 : Option Nat) = some bp →
        ∃ a, ({ addr := 2, event := some 3, payload := some 4 } : EventItem).payload = some a ∧
          hw.next ≤ a ∧
          (rsip_cb (some []) true true true true hw (some 0) (some 1)).heap.lookup a =
            hw.lookup bp) ∧
     (∀ b, (some 0 : Option Nat) = some b ∨ (some 1 : Option Nat) = some b →
        ({ addr := 2, event := some 3, payload := some 4 } : EventItem).event ≠ some b ∧
        ({ addr := 2, event := some 3, payload := some 4 } : EventItem).payload ≠ some b)) :=
  ⟨hw_wf, rfl,
   c8_pushed_fresh_copies [] true true hw (some 0) (some 1)
     { addr := 2, event := some 3, payload := some 4 } hw_wf
     (fun be h => by obtain rfl : be = 0 := (Option.some.inj h).symm; decide)
     (fun bp h => by obtain rfl : bp = 1 := (Option.some.inj h).symm; decide)
     rfl⟩

theorem c9_witness :
    (rsip_cb (some []) true true true false hw (some 0) (some 1)).pushed = none ∧
    (((rsip_cb (some []) true true true false hw (some 0) (some 1)).freed).Perm
       ((rsip_cb (some []) true true true false hw (some 0) (some 1)).allocated) ∧
     (rsip_cb (some []) true true true false hw (some 0) (some 1)).queue = some []) :=
  ⟨rfl, c9_nonpush_paths (some []) true true true false hw (some 0) (some 1) rfl⟩

theorem c10_witness :
    (allItemAddrs qw).Nodup ∧
    (rsip_worker_run qw = ((poppedItems qw).flatMap itemFrees, restAfterStop qw) ∧
     (rsip_worker_run qw).1.Nodup) :=
  ⟨by decide, c10_worker_terminates qw (by decide)⟩
